import Mathlib

/-!
Verification of the AI trends monitor (`monitor.py`).

The script fetches candidate repositories from a search API, annotates each
one with keyword heuristics (`analyze_for_pm`), assembles a text report
(`generate_report`) and posts a truncated copy to a chat webhook
(`send_feishu`).  Below, each Python construct is embedded shallowly:
network effects become explicit outcome parameters, dictionaries become
structures, and Python string primitives are modelled character-wise.
-/

namespace AIMonitor

/-- Python's `str.lower()`, modelled as character-wise lower-casing. -/
def pyLower (s : String) : String := ⟨s.data.map Char.toLower⟩

/-- Python's substring test `pat in s`: `pat` occurs contiguously in `s`. -/
def pyContains (s pat : String) : Bool := decide (pat.data <:+: s.data)

/-- Python's slice `s[:n]`: the first `n` characters of `s`. -/
def pySlice (s : String) (n : Nat) : String := ⟨s.data.take n⟩

/-- The dictionary built for each fetched item in `fetch_github_trending`
(keys `name`, `stars`, `description`, `url`, `created`). -/
structure Candidate where
  name : String
  stars : Nat
  description : String
  url : String
  created : String
deriving DecidableEq

/-- One item of the search API's JSON answer, with the fields the script
reads.  `description` may be JSON `null`, hence `Option`. -/
structure RawItem where
  full_name : String
  stargazers_count : Nat
  description : Option String
  html_url : String
  created_at : String
deriving DecidableEq

/-- Outcome of one `requests.get` call for a topic query: either a raised
network exception, or an HTTP answer with a status code and decoded items. -/
inductive HttpOutcome where
  | exn (msg : String)
  | response (status : Nat) (items : List RawItem)
deriving DecidableEq

/-- The dictionary appended to `results` for one item (monitor.py lines
56-62).  Python's `item['description'] or 'No description'` substitutes the
default for both a null and an empty description. -/
def mkCandidate (item : RawItem) : Candidate :=
  ⟨item.full_name,
   item.stargazers_count,
   (match item.description with
    | none => "No description"
    | some d => if d = "" then "No description" else d),
   item.html_url,
   pySlice item.created_at 10⟩

/-- The topic list of `fetch_github_trending`. -/
def topics : List String :=
  ["artificial-intelligence", "machine-learning", "llm", "claude", "openai"]

/-- `fetch_github_trending`: only the first two topics are consulted; a
non-200 answer or an exception contributes nothing; the result is cut to
five items.  The network is abstracted as a map from topic to outcome. -/
def fetch_github_trending (responses : String → HttpOutcome) : List Candidate :=
  ((topics.take 2).foldl (fun acc topic =>
    match responses topic with
    | .exn _ => acc
    | .response status items =>
        if status = 200 then acc ++ items.map mkCandidate else acc) []).take 5

/-- Commentary line for descriptions containing "agent". -/
def agentLine : String := "🎯 **Agent方向**：AI代理是当前热点，可能改变工作流"

/-- Commentary line for descriptions containing "llm" or "model". -/
def modelLine : String := "🧠 **模型层创新**：基础模型或微调方案，关注技术突破"

/-- Commentary line for descriptions containing "ui" or "interface". -/
def uiLine : String := "🎨 **交互创新**：AI产品界面层创新，用户体验优化"

/-- Commentary line for more than 1000 stars, interpolating the count. -/
def highLine (stars : Nat) : String :=
  "🔥 **高关注度**：" ++ toString stars ++ " stars，社区认可度高，值得深入研究"

/-- Commentary line for more than 100 stars, interpolating the count. -/
def earlyLine (stars : Nat) : String :=
  "⚡ **早期信号**：" ++ toString stars ++ " stars，处于爆发前夜，抢先布局"

/-- Commentary line for descriptions containing "experimental". -/
def cautionLine : String := "⚠️ **实验性质**：技术尚未成熟，商业化需谨慎"

/-- The fallback line returned when no rule fired. -/
def fallbackLine : String := "💡 **值得关注**：新技术方向，持续观察"

/-- The star-tier block of `analyze_for_pm` (lines 81-85): `if`/`elif`
makes the two tiers mutually exclusive. -/
def tierLines (stars : Nat) : List String :=
  if stars > 1000 then [highLine stars]
  else if stars > 100 then [earlyLine stars]
  else []

/-- The list `analysis` accumulated by `analyze_for_pm` (lines 70-89), in
the fixed evaluation order of the source. -/
def analysisLines (repo : Candidate) : List String :=
  (if pyContains (pyLower repo.description) "agent" then [agentLine] else [])
  ++ (if pyContains (pyLower repo.description) "llm"
        || pyContains (pyLower repo.description) "model" then [modelLine] else [])
  ++ (if pyContains (pyLower repo.description) "ui"
        || pyContains (pyLower repo.description) "interface" then [uiLine] else [])
  ++ tierLines repo.stars
  ++ (if pyContains (pyLower repo.description) "experimental" then [cautionLine] else [])

/-- `analyze_for_pm` (line 91): the newline-joined commentary, or the
fallback line when nothing fired. -/
def analyze_for_pm (repo : Candidate) : String :=
  if (analysisLines repo).isEmpty then fallbackLine
  else "\n".intercalate (analysisLines repo)

/-- The 50-character separator rule `"=" * 50`. -/
def sepRule : String := ⟨List.replicate 50 '='⟩

/-- The report lines emitted for one candidate (lines 104-113). -/
def repoBlock (i : Nat) (repo : Candidate) : List String :=
  [toString i ++ ". **" ++ repo.name ++ "** ⭐ " ++ toString repo.stars,
   "   描述：" ++ repo.description,
   "   链接：" ++ repo.url,
   "   创建：" ++ repo.created,
   "   \n   📈 PM分析："]
  ++ ((analyze_for_pm repo).splitOn "\n").map (fun line => "   " ++ line)
  ++ [""]

/-- The candidate blocks of the report, numbered from `i` (Python
`enumerate(github_repos, 1)`). -/
def repoBlocks : Nat → List Candidate → List String
  | _, [] => []
  | i, repo :: rest => repoBlock i repo ++ repoBlocks (i + 1) rest

/-- The fixed header block of the report (lines 96-101); the run's
timestamp is a parameter. -/
def reportHeader (now : String) : List String :=
  ["📊 AI 趋势监控报告", "时间：" ++ now, sepRule, "\n🔥 GitHub AI 热门项目\n"]

/-- `generate_report` (lines 93-115), with the timestamp and the network
abstracted as parameters. -/
def generate_report (now : String) (responses : String → HttpOutcome) : String :=
  "\n".intercalate (reportHeader now ++ repoBlocks 1 (fetch_github_trending responses))

/-- The JSON payload `send_feishu` posts; the nesting
`content.post.zh_cn` carries exactly a title and one text block. -/
structure FeishuPayload where
  msg_type : String
  title : String
  text : String
deriving DecidableEq

/-- The payload dictionary of `send_feishu` (lines 23-33). -/
def mkPayload (title content : String) : FeishuPayload := ⟨"post", title, content⟩

/-- `requests.post` inside `send_feishu`, abstracted: it either raises or
succeeds, according to the `postRaises` parameter. -/
def requests_post (postRaises : Bool) (_p : FeishuPayload) : Except String Unit :=
  if postRaises then .error "network error" else .ok ()

/-- What a `send_feishu` call did. -/
inductive SendOutcome where
  | skipped
  | attempted (payload : FeishuPayload) (delivered : Bool)
deriving DecidableEq

/-- `send_feishu` (lines 17-38): with no webhook configured it warns and
returns; otherwise it posts and swallows any delivery exception.  The
result is `Except.ok` exactly when no exception escapes the function. -/
def send_feishu (webhook title content : String) (postRaises : Bool) :
    Except String SendOutcome :=
  if webhook = "" then .ok .skipped
  else
    match requests_post postRaises (mkPayload title content) with
    | .ok _ => .ok (.attempted (mkPayload title content) true)
    | .error _ => .ok (.attempted (mkPayload title content) false)

/-- The webhook step of `main` (line 129): the report is cut to its first
3000 characters before being handed to `send_feishu`. -/
def main_feishu_step (webhook report : String) (postRaises : Bool) :
    Except String SendOutcome :=
  send_feishu webhook "🔥 AI 趋势日报" (pySlice report 3000) postRaises

/-- A failed topic query: a raised exception or a non-200 status. -/
def failedQuery : HttpOutcome → Prop
  | .exn _ => True
  | .response status _ => status ≠ 200

/- ### Helper lemmas -/

/-- Strings with different first characters differ. -/
theorem ne_of_head (s t : String) (h : s.data.head? ≠ t.data.head?) : s ≠ t :=
  fun e => h (by rw [e])

/-- The high-attention line starts with its fire emoji for every count. -/
theorem highLine_head (n : Nat) : (highLine n).data.head? = some '🔥' := by
  simp [highLine, String.data_append]

/-- The early-signal line starts with its bolt emoji for every count. -/
theorem earlyLine_head (n : Nat) : (earlyLine n).data.head? = some '⚡' := by
  simp [earlyLine, String.data_append]

theorem earlyLine_ne_agent (n : Nat) : earlyLine n ≠ agentLine :=
  ne_of_head _ _ (by rw [earlyLine_head]; decide)

theorem earlyLine_ne_model (n : Nat) : earlyLine n ≠ modelLine :=
  ne_of_head _ _ (by rw [earlyLine_head]; decide)

theorem earlyLine_ne_ui (n : Nat) : earlyLine n ≠ uiLine :=
  ne_of_head _ _ (by rw [earlyLine_head]; decide)

theorem earlyLine_ne_caution (n : Nat) : earlyLine n ≠ cautionLine :=
  ne_of_head _ _ (by rw [earlyLine_head]; decide)

theorem earlyLine_ne_high (n m : Nat) : earlyLine n ≠ highLine m :=
  ne_of_head _ _ (by rw [earlyLine_head, highLine_head]; decide)

theorem highLine_ne_agent (n : Nat) : highLine n ≠ agentLine :=
  ne_of_head _ _ (by rw [highLine_head]; decide)

theorem highLine_ne_model (n : Nat) : highLine n ≠ modelLine :=
  ne_of_head _ _ (by rw [highLine_head]; decide)

theorem highLine_ne_ui (n : Nat) : highLine n ≠ uiLine :=
  ne_of_head _ _ (by rw [highLine_head]; decide)

theorem highLine_ne_caution (n : Nat) : highLine n ≠ cautionLine :=
  ne_of_head _ _ (by rw [highLine_head]; decide)

/-- A member of a guarded singleton block is that block's line. -/
theorem mem_guard (c : Bool) (x l : String) (h : l ∈ (if c then [x] else [])) :
    l = x := by
  cases c
  · simp at h
  · simpa using h

/-- Every line of `analysisLines` is one of the five rule outputs. -/
theorem mem_analysisLines (repo : Candidate) (l : String)
    (h : l ∈ analysisLines repo) :
    l = agentLine ∨ l = modelLine ∨ l = uiLine ∨
      l ∈ tierLines repo.stars ∨ l = cautionLine := by
  unfold analysisLines at h
  simp only [List.mem_append] at h
  rcases h with (((h | h) | h) | h) | h
  · exact Or.inl (mem_guard _ _ _ h)
  · exact Or.inr (Or.inl (mem_guard _ _ _ h))
  · exact Or.inr (Or.inr (Or.inl (mem_guard _ _ _ h)))
  · exact Or.inr (Or.inr (Or.inr (Or.inl h)))
  · exact Or.inr (Or.inr (Or.inr (Or.inr (mem_guard _ _ _ h))))

/-- The agent line is never produced by the star-tier block. -/
theorem agent_notin_tier (s : Nat) : agentLine ∉ tierLines s := by
  intro h
  unfold tierLines at h
  split at h
  · simp only [List.mem_singleton] at h
    exact highLine_ne_agent s h.symm
  · split at h
    · simp only [List.mem_singleton] at h
      exact earlyLine_ne_agent s h.symm
    · simp at h

/-- A contiguous piece of a character list, lower-cased, is a contiguous
piece of the lower-cased list. -/
theorem map_lower_sub (l₁ l₂ : List Char) (h : l₁ <:+: l₂) :
    l₁.map Char.toLower <:+: l₂.map Char.toLower := by
  obtain ⟨s, t, rfl⟩ := h
  exact ⟨s.map Char.toLower, t.map Char.toLower, by simp⟩

/-- A singleton guarded block counts zero occurrences of a different line. -/
theorem count_guard_ne (c : Bool) (x a : String) (hx : a ≠ x) :
    ((if c then [x] else []).count a) = 0 := by
  cases c
  · simp
  · rw [List.count_eq_zero]
    simp [hx]

/-- Whenever `send_feishu` reports an attempted post, the posted payload is
the one built from its `title` and `content` arguments. -/
theorem send_payload (webhook title content : String) (postRaises : Bool)
    (p : FeishuPayload) (delivered : Bool)
    (h : send_feishu webhook title content postRaises
        = .ok (.attempted p delivered)) :
    p = mkPayload title content := by
  unfold send_feishu at h
  split at h
  · simp at h
  · rcases hr : requests_post postRaises (mkPayload title content) with e | u
    · rw [hr] at h
      simp only [Except.ok.injEq, SendOutcome.attempted.injEq] at h
      exact h.1.symm
    · rw [hr] at h
      simp only [Except.ok.injEq, SendOutcome.attempted.injEq] at h
      exact h.1.symm

/- ### Claim theorems -/

/-- Claim C1, counterexample: for the description "A build tool" with
popularity 10 the annotator output is not the fallback line — "build"
contains the substring "ui", so the interaction-innovation rule fires. -/
theorem c1_counterexample :
    analyze_for_pm ⟨"r", 10, "A build tool", "u", "c"⟩ ≠ fallbackLine := by
  decide

/-- Claim C1 (amended): for the input description "A build tool" with
popularity 10, the annotator output is exactly the single
interaction-innovation ("ui") line, because "build" contains "ui"; no
fallback line is emitted. -/
theorem c1_build_tool (name url created : String) :
    analysisLines ⟨name, 10, "A build tool", url, created⟩ = [uiLine] ∧
    analyze_for_pm ⟨name, 10, "A build tool", url, created⟩ = uiLine := by
  exact ⟨rfl, rfl⟩

/-- Claim C2: for the description "An experimental LLM agent framework"
with popularity 2500, the annotator emits exactly the agent-direction,
model-layer, high-attention (with 2500 interpolated) and caution lines, in
that order, and the output is their newline join with no fallback line. -/
theorem c2_scenario (name url created : String) :
    analysisLines ⟨name, 2500, "An experimental LLM agent framework", url, created⟩
      = [agentLine, modelLine, highLine 2500, cautionLine] ∧
    analyze_for_pm ⟨name, 2500, "An experimental LLM agent framework", url, created⟩
      = agentLine ++ "\n" ++ modelLine ++ "\n" ++ highLine 2500 ++ "\n" ++ cautionLine := by
  exact ⟨rfl, rfl⟩

/-- Claim C3: the popularity tiers are mutually exclusive — with 1500
stars no early-signal line is emitted for any description and any
interpolated count, with 150 stars no high-attention line, and with 50
stars neither tier line. -/
theorem c3_tiers (name desc url created : String) (n : Nat) :
    earlyLine n ∉ analysisLines ⟨name, 1500, desc, url, created⟩ ∧
    highLine n ∉ analysisLines ⟨name, 150, desc, url, created⟩ ∧
    earlyLine n ∉ analysisLines ⟨name, 50, desc, url, created⟩ ∧
    highLine n ∉ analysisLines ⟨name, 50, desc, url, created⟩ := by
  refine ⟨fun h => ?_, fun h => ?_, fun h => ?_, fun h => ?_⟩
  · rcases mem_analysisLines _ _ h with h | h | h | h | h
    · exact earlyLine_ne_agent n h
    · exact earlyLine_ne_model n h
    · exact earlyLine_ne_ui n h
    · have h' : earlyLine n ∈ [highLine 1500] := h
      exact earlyLine_ne_high n 1500 (List.mem_singleton.mp h')
    · exact earlyLine_ne_caution n h
  · rcases mem_analysisLines _ _ h with h | h | h | h | h
    · exact highLine_ne_agent n h
    · exact highLine_ne_model n h
    · exact highLine_ne_ui n h
    · have h' : highLine n ∈ [earlyLine 150] := h
      exact earlyLine_ne_high 150 n (List.mem_singleton.mp h').symm
    · exact highLine_ne_caution n h
  · rcases mem_analysisLines _ _ h with h | h | h | h | h
    · exact earlyLine_ne_agent n h
    · exact earlyLine_ne_model n h
    · exact earlyLine_ne_ui n h
    · exact absurd (h : earlyLine n ∈ ([] : List String)) (List.not_mem_nil _)
    · exact earlyLine_ne_caution n h
  · rcases mem_analysisLines _ _ h with h | h | h | h | h
    · exact highLine_ne_agent n h
    · exact highLine_ne_model n h
    · exact highLine_ne_ui n h
    · exact absurd (h : highLine n ∈ ([] : List String)) (List.not_mem_nil _)
    · exact highLine_ne_caution n h

/-- Claim C4: when the lower-cased description contains none of the six
keyword substrings and the popularity is at most 100, the annotator output
is exactly the single fallback line. -/
theorem c4_fallback (repo : Candidate)
    (hagent : pyContains (pyLower repo.description) "agent" = false)
    (hllm : pyContains (pyLower repo.description) "llm" = false)
    (hmodel : pyContains (pyLower repo.description) "model" = false)
    (hui : pyContains (pyLower repo.description) "ui" = false)
    (hiface : pyContains (pyLower repo.description) "interface" = false)
    (hexp : pyContains (pyLower repo.description) "experimental" = false)
    (hstars : repo.stars ≤ 100) :
    analysisLines repo = [] ∧ analyze_for_pm repo = fallbackLine := by
  have h1 : ¬ (repo.stars > 1000) := by omega
  have h2 : ¬ (repo.stars > 100) := by omega
  have hempty : analysisLines repo = [] := by
    unfold analysisLines tierLines
    rw [hagent, hllm, hmodel, hui, hiface, hexp]
    simp [h1, h2]
  refine ⟨hempty, ?_⟩
  unfold analyze_for_pm
  rw [hempty]
  rfl

/-- Witness for C4 at the keyword-free description "zzz" with 0 stars. -/
theorem c4_fallback_witness :
    analysisLines ⟨"r", 0, "zzz", "u", "c"⟩ = [] ∧
    analyze_for_pm ⟨"r", 0, "zzz", "u", "c"⟩ = fallbackLine :=
  c4_fallback _ rfl rfl rfl rfl rfl rfl (by decide)

/-- Claim C5: whenever the description contains "agent" in any letter
case, the annotator's line list contains the agent-direction line exactly
once, and the output is the newline join of that list (no fallback). -/
theorem c5_agent_once (repo : Candidate)
    (h : ∃ l : List Char, l <:+: repo.description.data
        ∧ l.map Char.toLower = "agent".data) :
    (analysisLines repo).count agentLine = 1 ∧
    analyze_for_pm repo = "\n".intercalate (analysisLines repo) := by
  obtain ⟨l, hsub, hlow⟩ := h
  have hagent : pyContains (pyLower repo.description) "agent" = true := by
    apply decide_eq_true
    rw [← hlow]
    exact map_lower_sub _ _ hsub
  have hcount : (analysisLines repo).count agentLine = 1 := by
    unfold analysisLines
    simp only [List.count_append]
    rw [hagent]
    rw [count_guard_ne _ modelLine agentLine (by decide),
        count_guard_ne _ uiLine agentLine (by decide),
        count_guard_ne _ cautionLine agentLine (by decide),
        List.count_eq_zero.mpr (agent_notin_tier repo.stars)]
    rfl
  refine ⟨hcount, ?_⟩
  have hne : analysisLines repo ≠ [] := by
    intro e
    rw [e] at hcount
    simp at hcount
  unfold analyze_for_pm
  rw [if_neg]
  simpa using hne

/-- Witness for C5 on the mixed-case description "Multi-AGENT system". -/
theorem c5_agent_once_witness :
    (analysisLines ⟨"n", 42, "Multi-AGENT system", "u", "c"⟩).count agentLine = 1 ∧
    analyze_for_pm ⟨"n", 42, "Multi-AGENT system", "u", "c"⟩
      = "\n".intercalate (analysisLines ⟨"n", 42, "Multi-AGENT system", "u", "c"⟩) :=
  c5_agent_once _ ⟨"AGENT".data, by decide, by decide⟩

/-- Claim C6: whatever the per-topic query outcomes, the candidate list
returned by `fetch_github_trending` has at most 5 elements. -/
theorem c6_fetch_bounded (responses : String → HttpOutcome) :
    (fetch_github_trending responses).length ≤ 5 := by
  unfold fetch_github_trending
  simp [List.length_take]

/-- Claim C7: when `main`'s webhook step attempts a post, the posted text
is exactly the first 3000 characters of the report, and is the whole
report when the report has at most 3000 characters. -/
theorem c7_truncation (webhook report : String) (postRaises : Bool)
    (p : FeishuPayload) (delivered : Bool)
    (h : main_feishu_step webhook report postRaises
        = .ok (.attempted p delivered)) :
    p.text = pySlice report 3000 ∧
    (report.data.length ≤ 3000 → p.text = report) := by
  have hp : p = mkPayload "🔥 AI 趋势日报" (pySlice report 3000) :=
    send_payload _ _ _ _ _ _ h
  subst hp
  refine ⟨rfl, fun hlen => ?_⟩
  show pySlice report 3000 = report
  unfold pySlice
  rw [List.take_of_length_le hlen]

/-- Witness for C7 on the two-character report "hi". -/
theorem c7_truncation_witness :
    (mkPayload "🔥 AI 趋势日报" (pySlice "hi" 3000)).text = pySlice "hi" 3000 ∧
    (("hi" : String).data.length ≤ 3000 →
      (mkPayload "🔥 AI 趋势日报" (pySlice "hi" 3000)).text = "hi") :=
  c7_truncation "https://w" "hi" false _ true rfl

/-- Claim C8: if both consulted topic queries fail (non-200 status or a
raised exception), `fetch_github_trending` returns the empty list, and the
generated report is exactly the joined fixed header block with an empty
candidate section. -/
theorem c8_failed_queries (now : String) (responses : String → HttpOutcome)
    (h1 : failedQuery (responses "artificial-intelligence"))
    (h2 : failedQuery (responses "machine-learning")) :
    fetch_github_trending responses = [] ∧
    generate_report now responses = "\n".intercalate (reportHeader now) := by
  have hf : fetch_github_trending responses = [] := by
    unfold fetch_github_trending
    have ht : topics.take 2 = ["artificial-intelligence", "machine-learning"] := rfl
    rw [ht]
    simp only [List.foldl_cons, List.foldl_nil]
    rcases hr1 : responses "artificial-intelligence" with ⟨m1⟩ | ⟨st1, items1⟩ <;>
      rcases hr2 : responses "machine-learning" with ⟨m2⟩ | ⟨st2, items2⟩
    · simp
    · rw [hr2] at h2
      simp only [failedQuery] at h2
      simp [h2]
    · rw [hr1] at h1
      simp only [failedQuery] at h1
      simp [h1]
    · rw [hr1] at h1
      rw [hr2] at h2
      simp only [failedQuery] at h1 h2
      simp [h1, h2]
  refine ⟨hf, ?_⟩
  unfold generate_report
  rw [hf]
  simp [repoBlocks]

/-- Witness for C8 with both queries answering HTTP 500. -/
theorem c8_failed_queries_witness :
    fetch_github_trending (fun _ => HttpOutcome.response 500 []) = [] ∧
    generate_report "2026-10-12 09:00" (fun _ => HttpOutcome.response 500 [])
      = "\n".intercalate (reportHeader "2026-10-12 09:00") :=
  c8_failed_queries _ _ (by decide : (500 : Nat) ≠ 200) (by decide : (500 : Nat) ≠ 200)

/-- Claim C9: with no webhook configured, `send_feishu` skips the post and
returns normally; with a webhook configured, a delivery failure is caught
and the function still returns normally; in every case no exception
escapes (the result is always `Except.ok`). -/
theorem c9_send_safe (webhook title content : String) (postRaises : Bool) :
    (webhook = "" → send_feishu webhook title content postRaises = .ok .skipped) ∧
    (webhook ≠ "" → postRaises = true →
      send_feishu webhook title content postRaises
        = .ok (.attempted (mkPayload title content) false)) ∧
    ∃ o, send_feishu webhook title content postRaises = .ok o := by
  refine ⟨fun hw => by simp [send_feishu, hw], fun hw hp => ?_, ?_⟩
  · subst hp
    simp [send_feishu, requests_post, hw]
  · by_cases hw : webhook = ""
    · exact ⟨.skipped, by simp [send_feishu, hw]⟩
    · cases postRaises
      · exact ⟨.attempted (mkPayload title content) true,
          by simp [send_feishu, requests_post, hw]⟩
      · exact ⟨.attempted (mkPayload title content) false,
          by simp [send_feishu, requests_post, hw]⟩

/-- Witness for C9: a skipped post with no webhook, and a caught delivery
failure with one. -/
theorem c9_send_safe_witness :
    send_feishu "" "t" "c" false = .ok .skipped ∧
    send_feishu "https://w" "t" "c" true
      = .ok (.attempted (mkPayload "t" "c") false) :=
  ⟨(c9_send_safe "" "t" "c" false).1 rfl,
   (c9_send_safe "https://w" "t" "c" true).2.1 (by decide) rfl⟩

/-- Claim C10: a fetched item with an absent (null or empty) description
yields a candidate whose description is the literal "No description", and
every built candidate has a non-empty description. -/
theorem c10_description_default (item : RawItem) :
    ((item.description = none ∨ item.description = some "") →
      (mkCandidate item).description = "No description") ∧
    (mkCandidate item).description ≠ "" := by
  constructor
  · rintro (h | h) <;> simp [mkCandidate, h]
  · rcases hd : item.description with _ | d
    · simp [mkCandidate, hd]
    · by_cases hde : d = ""
      · simp [mkCandidate, hd, hde]
      · simp [mkCandidate, hd, hde]

/-- Witness for C10 on an item whose description is null. -/
theorem c10_description_default_witness :
    (mkCandidate ⟨"o/r", 7, none, "u", "2026-01-02T03:04:05Z"⟩).description
        = "No description" ∧
    (mkCandidate ⟨"o/r", 7, none, "u", "2026-01-02T03:04:05Z"⟩).description ≠ "" :=
  ⟨(c10_description_default _).1 (Or.inl rfl), (c10_description_default _).2⟩

end AIMonitor
